import Mathlib

/-!
Shallow embedding of the `@alloy-lab/seo` core: the SEO-data deriver
(`generateSEO`), the meta-tag renderer (`generateMetaTags` / `escapeHtml`),
the structured-data builder (`generateStructuredData` and friends), and the
sitemap/robots builder (`generateSitemapUrls`, `generateSitemapXML`,
`generateRobotsTxt`).

Modelling conventions:
- TypeScript optional fields (`x?: T`) become `Option T`; JavaScript `undefined`
  is `none`.
- JavaScript string truthiness (`""` and `undefined` are falsy) is modelled by
  `strOr` / `jsOrD` / `jsOr` / `truthyStr?`.
- Template-literal interpolation of a possibly-undefined string renders `none`
  as the text "undefined", as JavaScript does.
- JavaScript numbers are modelled as exact rationals (`Rat`); the library only
  manipulates the literals 1, 0.8 and caller-supplied prices, so no
  floating-point rounding behaviour is observable in the claims.
- The impure clock read `new Date().toISOString()` in `generateSitemapUrls` is
  passed in as the explicit argument `now`.
- `Date` parsing/serialization is a host-runtime primitive, not repository
  code; it is modelled from the ECMAScript specification (see `jsDateParse`).
-/

namespace Seo

/-- JavaScript `a || b` for two strings: `a` unless it is empty. -/
def strOr (a b : String) : String :=
  if a = "" then b else a

/-- JavaScript `a || b` where `a` may be `undefined` and `b` is a string. -/
def jsOrD (a : Option String) (b : String) : String :=
  match a with
  | some s => strOr s b
  | none => b

/-- JavaScript `a || b` where both sides may be `undefined`: `b` is returned
verbatim (even if empty or undefined) when `a` is falsy. -/
def jsOr (a b : Option String) : Option String :=
  match a with
  | some s => if s = "" then b else some s
  | none => b

/-- Truthiness test for an optional string: returns the value exactly when it
is defined and non-empty (the only truthy case in JavaScript). -/
def truthyStr (a : Option String) : Option String :=
  match a with
  | some s => if s = "" then none else some s
  | none => none

/-- Template-literal interpolation of a possibly-undefined string:
JavaScript renders `undefined` as the text "undefined". -/
def jsUndef (a : Option String) : String :=
  match a with
  | some s => s
  | none => "undefined"

/-! ## Data model (src/types/index.ts) -/

/-- Media object (`Media` in src/types/index.ts); only the fields the core
reads are relevant, but all are kept. -/
structure Media where
  id : String
  url : String
  alt : Option String
  filename : Option String
  mimeType : Option String
  filesize : Option Nat
  width : Option Nat
  height : Option Nat
  createdAt : String
  updatedAt : String
  deriving DecidableEq

/-- Per-page SEO override block (`SEOFields`). -/
structure SEOFields where
  title : Option String
  description : Option String
  keywords : Option String
  image : Option Media
  noIndex : Option Bool
  noFollow : Option Bool
  deriving DecidableEq

/-- Page publication status (`'draft' | 'published'`). -/
inductive PageStatus where
  | draft
  | published
  deriving DecidableEq

/-- Page record (`Page`). -/
structure Page where
  id : String
  title : String
  slug : String
  status : PageStatus
  excerpt : Option String
  featuredImage : Option Media
  seo : Option SEOFields
  publishedDate : Option String
  createdAt : String
  updatedAt : String
  deriving DecidableEq

/-- Social-media map (`SiteSettings.socialMedia`); `Object.values` enumerates
the fields in declaration order. -/
structure SocialMedia where
  twitter : Option String
  facebook : Option String
  instagram : Option String
  linkedin : Option String
  youtube : Option String
  deriving DecidableEq

/-- Contact info (`SiteSettings.contactInfo`). -/
structure ContactInfo where
  email : Option String
  phone : Option String
  address : Option String
  deriving DecidableEq

/-- Site-wide defaults (`SiteSettings`). -/
structure SiteSettings where
  siteName : Option String
  siteDescription : Option String
  logo : Option Media
  socialMedia : Option SocialMedia
  contactInfo : Option ContactInfo
  deriving DecidableEq

/-- Derived, normalized output record (`SEOData`). -/
structure SEOData where
  title : String
  description : String
  keywords : Option String
  image : Option String
  url : Option String
  type : Option String
  structuredData : Option String
  deriving DecidableEq

/-- Breadcrumb entry (`{name, url}`). -/
structure Crumb where
  name : String
  url : String
  deriving DecidableEq

/-- Input of `generateStructuredData` (`StructuredDataConfig`). -/
structure StructuredDataConfig where
  baseUrl : String
  siteSettings : SiteSettings
  page : Option Page
  breadcrumbs : Option (List Crumb)

/-- Product input (`ProductData`); the JavaScript number `price` is modelled
as an exact rational. -/
structure ProductData where
  name : String
  description : String
  price : Option Rat
  currency : Option String
  image : Option String
  availability : Option String

/-- The first argument of `generateSEO` has TypeScript type
`Page | SiteSettings`; the `'title' in data` / `'slug' in data` checks in the
source hold exactly for the `Page` alternative, whose fields are all required. -/
inductive PageOrSite where
  | page (p : Page)
  | site (s : SiteSettings)

/-- The `type` argument of `generateSEO` (`'page' | 'home'`). -/
inductive SEOType where
  | page
  | home
  deriving DecidableEq

/-! ## JSON values and `JSON.stringify(v, null, 2)`

`generateStructuredData` builds plain JavaScript objects and serializes them
with `JSON.stringify(value, null, 2)`. Objects are ordered key/value lists
(JavaScript preserves insertion order); conditional spreads
`...(cond && {k: v})` become conditional list segments. -/

/-- JSON value tree; numbers are exact rationals. -/
inductive Json where
  | null
  | bool (b : Bool)
  | num (q : Rat)
  | str (s : String)
  | arr (elements : List Json)
  | obj (fields : List (String × Json))

/-- Hexadecimal digit (lowercase), for JSON control-character escapes. -/
def hexDigit (n : Nat) : Char :=
  if n < 10 then Char.ofNat (48 + n) else Char.ofNat (87 + n)

/-- Character-level JSON string escaping, as `JSON.stringify` performs it. -/
def jsonEscapeChar (c : Char) : List Char :=
  if c = '\"' then '\\' :: '\"' :: []
  else if c = '\\' then '\\' :: '\\' :: []
  else if c = '\n' then '\\' :: 'n' :: []
  else if c = '\r' then '\\' :: 'r' :: []
  else if c = '\t' then '\\' :: 't' :: []
  else if c = '\x08' then '\\' :: 'b' :: []
  else if c = '\x0c' then '\\' :: 'f' :: []
  else if c.toNat < 32 then
    '\\' :: 'u' :: '0' :: '0' :: hexDigit (c.toNat / 16) :: hexDigit (c.toNat % 16) :: []
  else c :: []

/-- JSON string-body escaping. -/
def jsonEscapeString (s : String) : String :=
  String.mk (s.data.map jsonEscapeChar).flatten

/-- Render a JavaScript number (an exact rational, here always with a
terminating decimal expansion) the way template literals and `JSON.stringify`
print it: no trailing ".0" for integers. -/
def fracDigits : Nat → Nat → Nat → List Char
  | 0, _, _ => []
  | _ + 1, 0, _ => []
  | fuel + 1, r, den =>
    Char.ofNat (48 + r * 10 / den) :: fracDigits fuel (r * 10 % den) den

/-- Decimal rendering of a rational (source-side: JavaScript number → string). -/
def jsNumToString (q : Rat) : String :=
  let sign := if q < 0 then "-" else ""
  let n := q.num.natAbs
  let d := q.den
  if n % d = 0 then sign ++ toString (n / d)
  else sign ++ toString (n / d) ++ "." ++ String.mk (fracDigits 30 (n % d) d)

/-- Indentation produced by `JSON.stringify(v, null, 2)` at a given depth. -/
def indentStr (n : Nat) : String :=
  String.mk (List.replicate (2 * n) ' ')

mutual

/-- `JSON.stringify(v, null, 2)` for a value at the given nesting depth. -/
def jsonRender (depth : Nat) : Json → String
  | Json.null => "null"
  | Json.bool b => if b then "true" else "false"
  | Json.num q => jsNumToString q
  | Json.str s => "\"" ++ jsonEscapeString s ++ "\""
  | Json.arr [] => "[]"
  | Json.arr (x :: xs) =>
    "[\n" ++ String.intercalate ",\n" (jsonRenderItems (depth + 1) (x :: xs))
      ++ "\n" ++ indentStr depth ++ "]"
  | Json.obj [] => "\x7b\x7d"
  | Json.obj (f :: fs) =>
    "\x7b\n" ++ String.intercalate ",\n" (jsonRenderFields (depth + 1) (f :: fs))
      ++ "\n" ++ indentStr depth ++ "\x7d"

/-- Array element lines. -/
def jsonRenderItems (depth : Nat) : List Json → List String
  | [] => []
  | x :: xs => (indentStr depth ++ jsonRender depth x) :: jsonRenderItems depth xs

/-- Object member lines. -/
def jsonRenderFields (depth : Nat) : List (String × Json) → List String
  | [] => []
  | (k, v) :: fs =>
    (indentStr depth ++ "\"" ++ jsonEscapeString k ++ "\": " ++ jsonRender depth v)
      :: jsonRenderFields depth fs

end

/-- First-match association lookup inside an object's field list. -/
def lookupField (k : String) : List (String × Json) → Option Json
  | [] => none
  | (k', v) :: rest => if k' = k then some v else lookupField k rest

/-- Look a key up in a JSON object (used only to state claims). -/
def jsonLookup (k : String) : Json → Option Json
  | Json.obj fields => lookupField k fields
  | _ => none

/-! ## Structured-data builder (src/utils/structuredData.ts) -/

/-- Values of the social-media map in declaration order, filtered by
truthiness: `Object.values(siteSettings.socialMedia).filter(Boolean)`. -/
def socialValues (sm : SocialMedia) : List String :=
  [sm.twitter, sm.facebook, sm.instagram, sm.linkedin, sm.youtube].filterMap truthyStr

/-- WebSite/Organization schema (`generateWebsiteSchema`), always the first
element of the structured-data array. -/
def generateWebsiteSchema (baseUrl : String) (siteSettings : SiteSettings) : Json :=
  Json.obj
    [("@context", Json.str "https://schema.org"),
     ("@type", Json.str "WebSite"),
     ("name", Json.str (jsOrD siteSettings.siteName "Website")),
     ("description", Json.str (jsOrD siteSettings.siteDescription "A modern website")),
     ("url", Json.str baseUrl),
     ("publisher", Json.obj
       ([("@type", Json.str "Organization"),
         ("name", Json.str (jsOrD siteSettings.siteName "Website")),
         ("description", Json.str (jsOrD siteSettings.siteDescription "A modern website")),
         ("url", Json.str baseUrl)]
        ++ (match siteSettings.logo with
            | some logo =>
              [("logo", Json.obj [("@type", Json.str "ImageObject"), ("url", Json.str logo.url)])]
            | none => [])
        ++ (match siteSettings.socialMedia with
            | some sm => [("sameAs", Json.arr ((socialValues sm).map Json.str))]
            | none => [])
        ++ (match siteSettings.contactInfo with
            | some ci =>
              [("contactPoint", Json.obj
                ([("@type", Json.str "ContactPoint")]
                 ++ (match truthyStr ci.email with
                     | some e => [("email", Json.str e)]
                     | none => [])
                 ++ (match truthyStr ci.phone with
                     | some ph => [("telephone", Json.str ph)]
                     | none => [])))]
            | none => []))),
     ("potentialAction", Json.obj
       [("@type", Json.str "SearchAction"),
        ("target", Json.obj
          [("@type", Json.str "EntryPoint"),
           ("urlTemplate", Json.str (baseUrl ++ "/search?q=\x7bsearch_term_string\x7d"))]),
        ("query-input", Json.str "required name=search_term_string")])]

/-- Article schema for a page (`generateArticleSchema`). -/
def generateArticleSchema (baseUrl : String) (siteSettings : SiteSettings) (page : Page) : Json :=
  let pageUrl := baseUrl ++ "/pages/" ++ page.slug
  let publishedDate := jsOrD page.publishedDate page.createdAt
  let modifiedDate := page.updatedAt
  Json.obj
    ([("@context", Json.str "https://schema.org"),
      ("@type", Json.str "Article"),
      ("headline", Json.str page.title),
      ("description", Json.str
        (jsOrD (page.seo.bind SEOFields.description)
          (jsOrD page.excerpt (jsOrD siteSettings.siteDescription "A modern website")))),
      ("url", Json.str pageUrl),
      ("datePublished", Json.str publishedDate),
      ("dateModified", Json.str modifiedDate),
      ("author", Json.obj
        [("@type", Json.str "Organization"),
         ("name", Json.str (jsOrD siteSettings.siteName "Website")),
         ("url", Json.str baseUrl)]),
      ("publisher", Json.obj
        ([("@type", Json.str "Organization"),
          ("name", Json.str (jsOrD siteSettings.siteName "Website")),
          ("url", Json.str baseUrl)]
         ++ (match siteSettings.logo with
             | some logo =>
               [("logo", Json.obj [("@type", Json.str "ImageObject"), ("url", Json.str logo.url)])]
             | none => []))),
      ("mainEntityOfPage", Json.obj
        [("@type", Json.str "WebPage"), ("@id", Json.str pageUrl)])]
     ++ (match page.featuredImage with
         | some img =>
           [("image", Json.obj
             ([("@type", Json.str "ImageObject"), ("url", Json.str img.url)]
              ++ (match truthyStr img.alt with
                  | some a => [("caption", Json.str a)]
                  | none => [])))]
         | none => [])
     ++ (match truthyStr (page.seo.bind SEOFields.keywords) with
         | some k => [("keywords", Json.str k)]
         | none => []))

/-- One `ListItem` of the breadcrumb schema, at 0-based index `i`:
`position` is `index + 1` and the item URL is made absolute unless it already
starts with "http". -/
def listItemJson (baseUrl : String) (i : Nat) (c : Crumb) : Json :=
  Json.obj
    [("@type", Json.str "ListItem"),
     ("position", Json.num ((i + 1 : Nat) : Rat)),
     ("name", Json.str c.name),
     ("item", Json.str (if c.url.startsWith "http" then c.url else baseUrl ++ c.url))]

/-- The `breadcrumbs.map((crumb, index) => ...)` call, as an index-carrying
recursion. -/
def breadcrumbItemsFrom (baseUrl : String) : Nat → List Crumb → List Json
  | _, [] => []
  | i, c :: cs => listItemJson baseUrl i c :: breadcrumbItemsFrom baseUrl (i + 1) cs

/-- BreadcrumbList schema (`generateBreadcrumbSchema`). -/
def generateBreadcrumbSchema (baseUrl : String) (breadcrumbs : List Crumb) : Json :=
  Json.obj
    [("@context", Json.str "https://schema.org"),
     ("@type", Json.str "BreadcrumbList"),
     ("itemListElement", Json.arr (breadcrumbItemsFrom baseUrl 0 breadcrumbs))]

/-- Combined JSON-LD string (`generateStructuredData`): WebSite schema, then
optionally an Article schema, then optionally a BreadcrumbList schema,
serialized with `JSON.stringify(structuredData, null, 2)`. -/
def generateStructuredData (config : StructuredDataConfig) : String :=
  let structuredData : List Json :=
    [generateWebsiteSchema config.baseUrl config.siteSettings]
    ++ (match config.page with
        | some page => [generateArticleSchema config.baseUrl config.siteSettings page]
        | none => [])
    ++ (match config.breadcrumbs with
        | some breadcrumbs =>
          if breadcrumbs.length > 0 then [generateBreadcrumbSchema config.baseUrl breadcrumbs]
          else []
        | none => [])
  jsonRender 0 (Json.arr structuredData)

/-- Product schema (`generateProductSchema`); the `offers` block is guarded by
`product.price && product.currency &&` — JavaScript truthiness, under which a
price of 0 and an empty currency are falsy. -/
def generateProductSchema (baseUrl : String) (product : ProductData) : Json :=
  Json.obj
    ([("@context", Json.str "https://schema.org"),
      ("@type", Json.str "Product"),
      ("name", Json.str product.name),
      ("description", Json.str product.description),
      ("url", Json.str baseUrl)]
     ++ (match truthyStr product.image with
         | some img => [("image", Json.str img)]
         | none => [])
     ++ (match product.price, product.currency with
         | some p, some c =>
           if p ≠ 0 ∧ c ≠ "" then
             [("offers", Json.obj
               [("@type", Json.str "Offer"),
                ("price", Json.num p),
                ("priceCurrency", Json.str c),
                ("availability",
                  Json.str (jsOrD product.availability "https://schema.org/InStock"))])]
           else []
         | _, _ => []))

/-! ## SEO-data deriver and meta-tag renderer (src/utils/seo.ts) -/

/-- SEO derivation (`generateSEO`). The source checks `type === 'page' &&
'title' in data` (resp. `'slug' in data`); both `in` tests hold exactly when
`data` is a `Page`, whose `title`/`slug` fields are required. When `type` is
`'page'` but `data` is a `SiteSettings`, the source's `data as Page` cast
passes a non-`Page` object into the structured-data builder — a state outside
the library's own `StructuredDataConfig` type, modelled as an absent page. -/
def generateSEO (data : PageOrSite) (siteSettings : SiteSettings) (type : SEOType)
    (baseUrl : Option String) (breadcrumbs : Option (List Crumb)) : SEOData :=
  let baseTitle := jsOrD siteSettings.siteName "Website"
  let baseDescription := jsOrD siteSettings.siteDescription "A modern website"
  let pageBranch : Option Page :=
    match type, data with
    | SEOType.page, PageOrSite.page p => some p
    | _, _ => none
  let title :=
    match pageBranch with
    | some p => jsOrD (p.seo.bind SEOFields.title) (p.title ++ " | " ++ baseTitle)
    | none => baseTitle
  let description :=
    match pageBranch with
    | some p =>
      jsOrD (p.seo.bind SEOFields.description) (jsOrD p.excerpt baseDescription)
    | none => baseDescription
  let keywords :=
    match pageBranch with
    | some p => p.seo.bind SEOFields.keywords
    | none => none
  let image :=
    match pageBranch with
    | some p =>
      jsOr (p.seo.bind fun f => f.image.map Media.url) (p.featuredImage.map Media.url)
    | none => none
  let url :=
    match type, data with
    | SEOType.page, PageOrSite.page p => some (jsUndef baseUrl ++ "/pages/" ++ p.slug)
    | _, _ => baseUrl
  let structuredData :=
    match truthyStr baseUrl with
    | some b =>
      some (generateStructuredData
        ⟨b, siteSettings, pageBranch, breadcrumbs⟩)
    | none => none
  ⟨strOr title "Website", strOr description "A modern website",
   keywords, image, url,
   some (if type = SEOType.home then "website" else "article"),
   structuredData⟩

/-- Single-character global replacement: `text.replace(/c/g, rep)` for a
one-character pattern replaces every occurrence of that character. -/
def replaceAllChar (c : Char) (rep : List Char) : List Char → List Char
  | [] => []
  | d :: ds => (if d = c then rep else [d]) ++ replaceAllChar c rep ds

/-- The five sequential `.replace` calls of the source's `escapeHtml`, at the
character-list level. -/
def escapeHtmlList (s : List Char) : List Char :=
  replaceAllChar '\'' "&#39;".data
    (replaceAllChar '\"' "&quot;".data
      (replaceAllChar '>' "&gt;".data
        (replaceAllChar '<' "&lt;".data
          (replaceAllChar '&' "&amp;".data s))))

/-- HTML-attribute escaping (`escapeHtml`). -/
def escapeHtml (text : String) : String :=
  String.mk (escapeHtmlList text.data)

/-- Meta-tag rendering (`generateMetaTags`): the `tags` array is built by
sequential pushes and joined with `"\n    "`. -/
def generateMetaTags (seo : SEOData) : String :=
  let tags :=
    ["<title>" ++ escapeHtml seo.title ++ "</title>",
     "<meta name=\"description\" content=\"" ++ escapeHtml seo.description ++ "\" />"]
  let tags := tags
    ++ (match truthyStr seo.keywords with
        | some k => ["<meta name=\"keywords\" content=\"" ++ escapeHtml k ++ "\" />"]
        | none => [])
  let tags := tags
    ++ ["<meta property=\"og:title\" content=\"" ++ escapeHtml seo.title ++ "\" />",
        "<meta property=\"og:description\" content=\"" ++ escapeHtml seo.description ++ "\" />",
        "<meta property=\"og:type\" content=\"" ++ jsOrD seo.type "website" ++ "\" />"]
  let tags := tags
    ++ (match truthyStr seo.url with
        | some u => ["<meta property=\"og:url\" content=\"" ++ escapeHtml u ++ "\" />"]
        | none => [])
  let tags := tags
    ++ (match truthyStr seo.image with
        | some img =>
          ["<meta property=\"og:image\" content=\"" ++ escapeHtml img ++ "\" />",
           "<meta name=\"twitter:card\" content=\"summary_large_image\" />",
           "<meta name=\"twitter:image\" content=\"" ++ escapeHtml img ++ "\" />"]
        | none => [])
  let tags := tags
    ++ ["<meta name=\"twitter:title\" content=\"" ++ escapeHtml seo.title ++ "\" />",
        "<meta name=\"twitter:description\" content=\"" ++ escapeHtml seo.description ++ "\" />"]
  String.intercalate "\n    " tags

/-! ## Sitemap and robots builder (src/utils/sitemap.ts) -/

/-- Change-frequency values. -/
inductive Changefreq where
  | always
  | hourly
  | daily
  | weekly
  | monthly
  | yearly
  | never
  deriving DecidableEq

/-- Text of a change-frequency value. -/
def changefreqStr : Changefreq → String
  | Changefreq.always => "always"
  | Changefreq.hourly => "hourly"
  | Changefreq.daily => "daily"
  | Changefreq.weekly => "weekly"
  | Changefreq.monthly => "monthly"
  | Changefreq.yearly => "yearly"
  | Changefreq.never => "never"

/-- Sitemap entry (`SitemapUrl`). -/
structure SitemapUrl where
  loc : String
  lastmod : String
  changefreq : Changefreq
  priority : Rat
  deriving DecidableEq

/-- Sitemap configuration (`Partial<SitemapConfig>`): every field may be
absent, in which case the destructuring default applies. -/
structure SitemapConfig where
  baseUrl : Option String
  includeHomepage : Option Bool
  homepagePriority : Option Rat
  pagePriority : Option Rat
  defaultChangefreq : Option Changefreq

/-- Destructuring default `baseUrl = ''`. -/
def cfgBaseUrl (config : SitemapConfig) : String := config.baseUrl.getD ""

/-- Destructuring default `includeHomepage = true` (applies only to
`undefined`, not to `false`). -/
def cfgIncludeHomepage (config : SitemapConfig) : Bool := config.includeHomepage.getD true

/-- Destructuring default `homepagePriority = 1.0`. -/
def cfgHomepagePriority (config : SitemapConfig) : Rat := config.homepagePriority.getD 1

/-- Destructuring default `pagePriority = 0.8`. -/
def cfgPagePriority (config : SitemapConfig) : Rat := config.pagePriority.getD (4 / 5)

/-- Destructuring default `defaultChangefreq = 'weekly'`. -/
def cfgDefaultChangefreq (config : SitemapConfig) : Changefreq :=
  config.defaultChangefreq.getD Changefreq.weekly

/-- Sitemap eligibility (`shouldIncludePage`): non-empty slug, published, and
`seo?.noIndex` not truthy. -/
def shouldIncludePage (page : Page) : Bool :=
  if page.slug = "" then false
  else if page.status ≠ PageStatus.published then false
  else if (page.seo.bind SEOFields.noIndex).getD false then false
  else true

/-- Modelled from the spec: ECMAScript `Date` construction from a string and
`Date.prototype.toISOString` are host-runtime primitives, not repository code.
The model is restricted to canonical ISO-8601 UTC strings
(`YYYY-MM-DDThh:mm:ss.mmmZ`, with in-range month/day/time fields), on which
ECMA-262 guarantees that parsing succeeds and `toISOString` returns the input
unchanged; every other string is treated as an Invalid Date (`none`). Real
JavaScript accepts further formats, so this parser under-approximates the set
of valid inputs; the malformed strings used below (plain words) are Invalid
Dates in full JavaScript as well. -/
def jsDateParse (s : String) : Option String :=
  match s.data with
  | [y1, y2, y3, y4, '-', m1, m2, '-', d1, d2, 'T',
     h1, h2, ':', mi1, mi2, ':', s1, s2, '.', f1, f2, f3, 'Z'] =>
    let dig := fun (c : Char) => c.isDigit
    let val2 := fun (a b : Char) => (a.toNat - 48) * 10 + (b.toNat - 48)
    if dig y1 ∧ dig y2 ∧ dig y3 ∧ dig y4 ∧ dig m1 ∧ dig m2 ∧ dig d1 ∧ dig d2
        ∧ dig h1 ∧ dig h2 ∧ dig mi1 ∧ dig mi2 ∧ dig s1 ∧ dig s2
        ∧ dig f1 ∧ dig f2 ∧ dig f3
        ∧ 1 ≤ val2 m1 m2 ∧ val2 m1 m2 ≤ 12
        ∧ 1 ≤ val2 d1 d2 ∧ val2 d1 d2 ≤ 28
        ∧ val2 h1 h2 ≤ 23 ∧ val2 mi1 mi2 ≤ 59 ∧ val2 s1 s2 ≤ 59 then
      some s
    else none
  | _ => none

/-- Modelled from the spec: `Date.prototype.toISOString` serializes a valid
date and throws `RangeError: Invalid time value` on an Invalid Date
(ECMA-262); the throw is modelled as an `Except.error`. -/
def jsToISOString (d : Option String) : Except String String :=
  match d with
  | some iso => Except.ok iso
  | none => Except.error "Invalid time value"

/-- The lastmod source for a page entry:
`page.updatedAt || page.publishedDate || now`. -/
def pageLastmodSource (now : String) (page : Page) : String :=
  strOr page.updatedAt (jsOrD page.publishedDate now)

/-- Body of the `pages.forEach` loop for one included page: builds the entry
or throws while serializing the (possibly malformed) lastmod date. -/
def pageEntry (baseUrl : String) (changefreq : Changefreq) (priority : Rat)
    (now : String) (page : Page) : Except String SitemapUrl :=
  match jsToISOString (jsDateParse (pageLastmodSource now page)) with
  | Except.ok iso =>
    Except.ok ⟨baseUrl ++ "/pages/" ++ page.slug, iso, changefreq, priority⟩
  | Except.error e => Except.error e

/-- The `pages.forEach` traversal: entries of included pages in input order;
a thrown date error aborts the whole call. -/
def sitemapLoop (baseUrl : String) (changefreq : Changefreq) (priority : Rat)
    (now : String) : List Page → Except String (List SitemapUrl)
  | [] => Except.ok []
  | page :: rest =>
    if shouldIncludePage page then
      match pageEntry baseUrl changefreq priority now page with
      | Except.ok u => (sitemapLoop baseUrl changefreq priority now rest).map (u :: ·)
      | Except.error e => Except.error e
    else sitemapLoop baseUrl changefreq priority now rest

/-- Sitemap URL list (`generateSitemapUrls`). The source reads the clock once
(`const now = new Date().toISOString()`); that read is the explicit `now`
argument here. The `siteSettings` parameter is accepted and unused, as in the
source. -/
def generateSitemapUrls (pages : List Page) (siteSettings : SiteSettings)
    (config : SitemapConfig) (now : String) : Except String (List SitemapUrl) :=
  match sitemapLoop (cfgBaseUrl config) (cfgDefaultChangefreq config)
      (cfgPagePriority config) now pages with
  | Except.ok pageUrls =>
    Except.ok
      ((if cfgIncludeHomepage config then
          [⟨cfgBaseUrl config, now, Changefreq.daily, cfgHomepagePriority config⟩]
        else [])
       ++ pageUrls)
  | Except.error e => Except.error e

/-- XML escaping (`escapeXml` in src/utils/sitemap.ts): the same five
sequential replacements as `escapeHtml`. -/
def escapeXml (text : String) : String :=
  String.mk (escapeHtmlList text.data)

/-- XML serialization (`generateSitemapXML`). -/
def generateSitemapXML (urls : List SitemapUrl) : String :=
  "<?xml version=\"1.0\" encoding=\"UTF-8\"?>\n"
  ++ "<urlset xmlns=\"http://www.sitemaps.org/schemas/sitemap/0.9\">\n"
  ++ String.join (urls.map fun url =>
       "  <url>\n"
       ++ "    <loc>" ++ escapeXml url.loc ++ "</loc>\n"
       ++ "    <lastmod>" ++ url.lastmod ++ "</lastmod>\n"
       ++ "    <changefreq>" ++ changefreqStr url.changefreq ++ "</changefreq>\n"
       ++ "    <priority>" ++ jsNumToString url.priority ++ "</priority>\n"
       ++ "  </url>\n")
  ++ "</urlset>"

/-- robots.txt text (`generateRobotsTxt`). -/
def generateRobotsTxt (baseUrl : String) : String :=
  "# Robots.txt\n" ++ "# Generated automatically\n\n"
  ++ "User-agent: *\n" ++ "Allow: /\n\n"
  ++ "# Disallow admin and API routes\n"
  ++ "Disallow: /admin/\n" ++ "Disallow: /api/\n" ++ "Disallow: /_next/\n"
  ++ "Disallow: /build/\n" ++ "Disallow: /uploads/\n\n"
  ++ "# Sitemap\n" ++ "Sitemap: " ++ baseUrl ++ "/sitemap.xml\n"

/-! ## Claim-level (specification-side) definitions

These restate parts of the specification in its own words, to be compared
against the source-side definitions above. -/

/-- Specification-side per-character escaping map: exactly the five characters
`&`, `<`, `>`, `"`, `'` become entities, every other character is unchanged. -/
def escapeCharClaim (c : Char) : List Char :=
  if c = '&' then "&amp;".data
  else if c = '<' then "&lt;".data
  else if c = '>' then "&gt;".data
  else if c = '\"' then "&quot;".data
  else if c = '\'' then "&#39;".data
  else [c]

/-- Specification-side breadcrumb list item for a (0-based index, crumb) pair:
`position` is the 1-based index and the item URL is the crumb URL unchanged if
it already starts with "http", otherwise prefixed with the base URL. -/
def breadcrumbItemClaim (baseUrl : String) (pc : Nat × Crumb) : Json :=
  Json.obj
    [("@type", Json.str "ListItem"),
     ("position", Json.num ((pc.1 : Rat) + 1)),
     ("name", Json.str pc.2.name),
     ("item", Json.str (if pc.2.url.startsWith "http" then pc.2.url else baseUrl ++ pc.2.url))]

/-- Specification-side breadcrumb item list: the given crumbs in their given
order, each paired with its position. -/
def breadcrumbItemsClaim (baseUrl : String) (bs : List Crumb) : List Json :=
  bs.enum.map (breadcrumbItemClaim baseUrl)

/-- Specification-side meta-tag sequence: title, description, optional
keywords, the three Open Graph tags (type defaulting to "website"), optional
og:url, the optional image triplet, then the two Twitter text tags. -/
def metaTagsClaim (seo : SEOData) : List String :=
  ["<title>" ++ escapeHtml seo.title ++ "</title>",
   "<meta name=\"description\" content=\"" ++ escapeHtml seo.description ++ "\" />"]
  ++ (truthyStr seo.keywords).elim []
      (fun k => ["<meta name=\"keywords\" content=\"" ++ escapeHtml k ++ "\" />"])
  ++ ["<meta property=\"og:title\" content=\"" ++ escapeHtml seo.title ++ "\" />",
      "<meta property=\"og:description\" content=\"" ++ escapeHtml seo.description ++ "\" />",
      "<meta property=\"og:type\" content=\"" ++ jsOrD seo.type "website" ++ "\" />"]
  ++ (truthyStr seo.url).elim []
      (fun u => ["<meta property=\"og:url\" content=\"" ++ escapeHtml u ++ "\" />"])
  ++ (truthyStr seo.image).elim []
      (fun img =>
        ["<meta property=\"og:image\" content=\"" ++ escapeHtml img ++ "\" />",
         "<meta name=\"twitter:card\" content=\"summary_large_image\" />",
         "<meta name=\"twitter:image\" content=\"" ++ escapeHtml img ++ "\" />"])
  ++ ["<meta name=\"twitter:title\" content=\"" ++ escapeHtml seo.title ++ "\" />",
      "<meta name=\"twitter:description\" content=\"" ++ escapeHtml seo.description ++ "\" />"]

/-- Specification-side `offers` presence condition and contents for the
Product schema, under JavaScript truthiness of `price` and `currency`. -/
def offersClaim (product : ProductData) : Option Json :=
  match product.price, product.currency with
  | some p, some c =>
    if p ≠ 0 ∧ c ≠ "" then
      some (Json.obj
        [("@type", Json.str "Offer"),
         ("price", Json.num p),
         ("priceCurrency", Json.str c),
         ("availability", Json.str (jsOrD product.availability "https://schema.org/InStock"))])
    else none
  | _, _ => none

/-! ## Helper lemmas -/

theorem strOr_ne_empty (a b : String) (h : b ≠ "") : strOr a b ≠ "" := by
  unfold strOr
  by_cases ha : a = "" <;> simp [ha, h]

theorem string_mk_data (s : String) : String.mk s.data = s := rfl

theorem mid_append_ne_empty (a b : String) : a ++ " | " ++ b ≠ "" := by
  intro h
  have hl := congrArg String.length h
  simp [String.length_append] at hl
  exact absurd hl.1.2 (by decide)

theorem replaceAllChar_append (c : Char) (rep : List Char) (xs ys : List Char) :
    replaceAllChar c rep (xs ++ ys) = replaceAllChar c rep xs ++ replaceAllChar c rep ys := by
  induction xs with
  | nil => rfl
  | cons d ds ih => simp [replaceAllChar, ih]

theorem escapeHtmlList_append (xs ys : List Char) :
    escapeHtmlList (xs ++ ys) = escapeHtmlList xs ++ escapeHtmlList ys := by
  simp [escapeHtmlList, replaceAllChar_append]

theorem escapeHtmlList_cons (d : Char) (ds : List Char) :
    escapeHtmlList (d :: ds) = escapeHtmlList [d] ++ escapeHtmlList ds :=
  escapeHtmlList_append [d] ds

theorem escapeHtmlList_single (d : Char) : escapeHtmlList [d] = escapeCharClaim d := by
  by_cases h1 : d = '&'
  · subst h1; decide
  by_cases h2 : d = '<'
  · subst h2; decide
  by_cases h3 : d = '>'
  · subst h3; decide
  by_cases h4 : d = '\"'
  · subst h4; decide
  by_cases h5 : d = '\''
  · subst h5; decide
  simp [escapeHtmlList, replaceAllChar, escapeCharClaim, h1, h2, h3, h4, h5]

theorem escapeHtmlList_eq_claim (l : List Char) :
    escapeHtmlList l = (l.map escapeCharClaim).flatten := by
  induction l with
  | nil => rfl
  | cons d ds ih =>
    rw [escapeHtmlList_cons, escapeHtmlList_single, ih]
    simp

theorem escapeCharClaim_no_special (c : Char)
    (h : c ∉ ['&', '<', '>', '\"', '\'']) : escapeCharClaim c = [c] := by
  simp at h
  simp [escapeCharClaim, h]

theorem flatten_escape_no_special (l : List Char)
    (h : ∀ c ∈ l, c ∉ ['&', '<', '>', '\"', '\'']) :
    (l.map escapeCharClaim).flatten = l := by
  induction l with
  | nil => rfl
  | cons d ds ih =>
    simp only [List.map_cons, List.flatten_cons]
    rw [escapeCharClaim_no_special d (h d (List.mem_cons_self d ds)),
      ih fun c hc => h c (List.mem_cons_of_mem d hc)]
    rfl

/-! ## Concrete fixtures used by witnesses and counterexamples -/

/-- Site settings with every optional field absent. -/
def emptySiteSettings : SiteSettings := ⟨none, none, none, none, none⟩

/-- A page with no SEO override block. -/
def plainPage : Page :=
  ⟨"1", "T", "t", PageStatus.published, none, none, none, none, "", ""⟩

/-- A page whose SEO override block sets a non-empty title. -/
def overriddenPage : Page :=
  ⟨"2", "About", "about", PageStatus.published, none, none,
   some ⟨some "Custom", none, none, none, none, none⟩, none, "", ""⟩

/-- Site settings whose `siteName` is the empty string (set but falsy). -/
def emptyNameSite : SiteSettings := ⟨some "", none, none, none, none⟩

/-- Site settings naming the site "Acme". -/
def acmeSite : SiteSettings := ⟨some "Acme", none, none, none, none⟩

/-! ## Claims -/

/-- C1: for every input (any combination of page, site settings, type, base
URL and breadcrumbs, including all optional fields absent), the `SEOData`
returned by `generateSEO` has a non-empty `title` and a non-empty
`description`; with every optional input absent the fallback chain bottoms out
at the literals "Website" and "A modern website". -/
theorem c1_generateSEO_nonempty (data : PageOrSite) (siteSettings : SiteSettings)
    (type : SEOType) (baseUrl : Option String) (breadcrumbs : Option (List Crumb)) :
    (generateSEO data siteSettings type baseUrl breadcrumbs).title ≠ ""
    ∧ (generateSEO data siteSettings type baseUrl breadcrumbs).description ≠ ""
    ∧ (generateSEO (PageOrSite.site emptySiteSettings) emptySiteSettings
        SEOType.home none none).title = "Website"
    ∧ (generateSEO (PageOrSite.site emptySiteSettings) emptySiteSettings
        SEOType.home none none).description = "A modern website" := by
  refine ⟨?_, ?_, rfl, rfl⟩
  · cases data <;> cases type <;> exact strOr_ne_empty _ _ (by decide)
  · cases data <;> cases type <;> exact strOr_ne_empty _ _ (by decide)

/-- C2 counterexample: with `page.seo.title` unset and `site.siteName` set to
the empty string, the claim's asserted result is the concatenation
`"{page.title} | {site.siteName}"`, that is "T | ", but the code returns
"T | Website" — the empty site name falls through to the "Website" literal
instead of being interpolated. -/
theorem c2_counterexample :
    plainPage.seo.bind SEOFields.title = none
    ∧ emptyNameSite.siteName = some ""
    ∧ (generateSEO (PageOrSite.page plainPage) emptyNameSite SEOType.page
        (some "https://x.com") none).title = "T | Website"
    ∧ ¬ ("T | Website" = plainPage.title ++ " | " ++ "") :=
  ⟨rfl, rfl, rfl, by decide⟩

/-- C2 (amended): `generateSEO(page, site, 'page', baseUrl)` with
`page.seo.title` set to a non-empty string returns that title verbatim; with
`page.seo.title` unset it returns `"{page.title} | {siteName}"`, where
`siteName` is `site.siteName` if that is set and non-empty and the literal
"Website" otherwise. -/
theorem c2_title_amended (page : Page) (site : SiteSettings)
    (baseUrl : Option String) (breadcrumbs : Option (List Crumb)) :
    (∀ t, page.seo.bind SEOFields.title = some t → t ≠ "" →
      (generateSEO (PageOrSite.page page) site SEOType.page baseUrl breadcrumbs).title = t)
    ∧ (page.seo.bind SEOFields.title = none →
      (generateSEO (PageOrSite.page page) site SEOType.page baseUrl breadcrumbs).title
        = page.title ++ " | " ++ jsOrD site.siteName "Website") := by
  constructor
  · intro t ht htne
    show strOr (jsOrD (page.seo.bind SEOFields.title)
      (page.title ++ " | " ++ jsOrD site.siteName "Website")) "Website" = t
    rw [ht]
    simp [jsOrD, strOr, htne]
  · intro ht
    show strOr (jsOrD (page.seo.bind SEOFields.title)
      (page.title ++ " | " ++ jsOrD site.siteName "Website")) "Website"
      = page.title ++ " | " ++ jsOrD site.siteName "Website"
    rw [ht]
    simp [jsOrD, strOr, mid_append_ne_empty]

/-- C2 witness: both branches of the amended statement at concrete inputs —
the override "Custom" wins verbatim, and without an override the title is the
concatenation "T | Acme". -/
theorem c2_title_amended_witness :
    (generateSEO (PageOrSite.page overriddenPage) acmeSite SEOType.page
      (some "https://x.com") none).title = "Custom"
    ∧ (generateSEO (PageOrSite.page plainPage) acmeSite SEOType.page
      (some "https://x.com") none).title = "T | Acme" :=
  ⟨(c2_title_amended overriddenPage acmeSite (some "https://x.com") none).1
      "Custom" rfl (by decide),
   (c2_title_amended plainPage acmeSite (some "https://x.com") none).2 rfl⟩

/-- C6: the HTML escaping of the meta-tag renderer maps exactly the five
characters `&`, `<`, `>`, `"`, `'` to their entities (character-for-character,
per `escapeCharClaim`); a string containing none of the five is returned
unchanged; and escaping "A & B" yields "A &amp; B". -/
theorem c6_escapeHtml_exact (s : String) :
    escapeHtml s = String.mk ((s.data.map escapeCharClaim).flatten)
    ∧ ((∀ c ∈ s.data, c ∉ ['&', '<', '>', '\"', '\'']) → escapeHtml s = s)
    ∧ escapeHtml "A & B" = "A &amp; B" := by
  refine ⟨?_, ?_, rfl⟩
  · unfold escapeHtml
    rw [escapeHtmlList_eq_claim]
  · intro h
    unfold escapeHtml
    rw [escapeHtmlList_eq_claim, flatten_escape_no_special s.data h]

/-- C6 witness: the escaping leaves a five-special-free string unchanged, at a
concrete input. -/
theorem c6_escapeHtml_witness : escapeHtml "hello world" = "hello world" :=
  (c6_escapeHtml_exact "hello world").2.1 (by decide)

/-- C10: for every page input, calling `generateSEO` with type `'page'` and
`baseUrl` omitted (`undefined`) yields a `url` that is not absent but the
literal string `"undefined/pages/{slug}"` — the missing base URL is
interpolated as the text "undefined" by the template literal. -/
theorem c10_url_undefined_interpolation (page : Page) (site : SiteSettings)
    (breadcrumbs : Option (List Crumb)) :
    (generateSEO (PageOrSite.page page) site SEOType.page none breadcrumbs).url
      = some ("undefined/pages/" ++ page.slug) := rfl

/-- C3: for every `SEOData`, the meta-tag renderer emits exactly the
fixed-order tag sequence described by the specification — title first, the
description meta tag immediately after, a keywords tag iff `seo.keywords` is
truthy, the three Open Graph tags with `og:type` defaulting to "website",
`og:url` iff `seo.url` is truthy, the og:image/twitter:card/twitter:image
triplet together iff `seo.image` is truthy, then twitter:title and
twitter:description — joined with the source's separator. -/
theorem c3_metaTags_order (seo : SEOData) :
    generateMetaTags seo = String.intercalate "\n    " (metaTagsClaim seo) := by
  unfold generateMetaTags metaTagsClaim
  cases hk : truthyStr seo.keywords <;> cases hu : truthyStr seo.url <;>
    cases hi : truthyStr seo.image <;> simp [hk, hu, hi]

theorem breadcrumbItemsFrom_eq_enumFrom (baseUrl : String) (bs : List Crumb) :
    ∀ n, breadcrumbItemsFrom baseUrl n bs = (List.enumFrom n bs).map (breadcrumbItemClaim baseUrl) := by
  induction bs with
  | nil => intro n; rfl
  | cons c cs ih =>
    intro n
    simp only [breadcrumbItemsFrom, List.enumFrom, List.map_cons, ih (n + 1)]
    have hcast : ((n + 1 : Nat) : Rat) = (n : Rat) + 1 := by push_cast; ring
    congr 1
    simp only [listItemJson, breadcrumbItemClaim, hcast]

theorem breadcrumbItemsFrom_eq_claim (baseUrl : String) (bs : List Crumb) :
    breadcrumbItemsFrom baseUrl 0 bs = breadcrumbItemsClaim baseUrl bs := by
  rw [breadcrumbItemsFrom_eq_enumFrom]
  rfl

/-- C5: `generateStructuredData` returns the 2-space-indented serialization of
an explicit array of JSON-LD values whose first element is the WebSite schema
(with `@type` "WebSite"); whenever `breadcrumbs` is supplied and non-empty,
the array also contains the BreadcrumbList schema, whose `itemListElement`
keeps the crumbs in their given order with 1-based `position` values and each
item URL resolved to absolute form (unchanged if it already starts with
"http", else prefixed with the base URL). -/
theorem c5_structuredData_shape (config : StructuredDataConfig) :
    ∃ elems : List Json,
      generateStructuredData config = jsonRender 0 (Json.arr elems)
      ∧ (∃ rest, elems
          = generateWebsiteSchema config.baseUrl config.siteSettings :: rest)
      ∧ jsonLookup "@type" (generateWebsiteSchema config.baseUrl config.siteSettings)
          = some (Json.str "WebSite")
      ∧ (∀ bs, config.breadcrumbs = some bs → bs ≠ [] →
          generateBreadcrumbSchema config.baseUrl bs ∈ elems
          ∧ jsonLookup "itemListElement" (generateBreadcrumbSchema config.baseUrl bs)
              = some (Json.arr (breadcrumbItemsClaim config.baseUrl bs))) := by
  obtain ⟨baseUrl, siteSettings, pageOpt, crumbsOpt⟩ := config
  have hbc : ∀ bs : List Crumb,
      jsonLookup "itemListElement" (generateBreadcrumbSchema baseUrl bs)
        = some (Json.arr (breadcrumbItemsClaim baseUrl bs)) := by
    intro bs
    have h0 : jsonLookup "itemListElement" (generateBreadcrumbSchema baseUrl bs)
        = some (Json.arr (breadcrumbItemsFrom baseUrl 0 bs)) := rfl
    rw [h0, breadcrumbItemsFrom_eq_claim]
  cases pageOpt with
  | none =>
    cases crumbsOpt with
    | none =>
      exact ⟨[generateWebsiteSchema baseUrl siteSettings], rfl, ⟨[], rfl⟩, rfl,
        fun bs hbs _ => absurd hbs (by simp)⟩
    | some bs0 =>
      refine ⟨generateWebsiteSchema baseUrl siteSettings
          :: (if bs0.length > 0 then [generateBreadcrumbSchema baseUrl bs0] else []),
        rfl, ⟨_, rfl⟩, rfl, ?_⟩
      intro bs hbs hne
      obtain rfl : bs0 = bs := by injection hbs
      rw [if_pos (List.length_pos.mpr hne)]
      exact ⟨List.mem_cons_of_mem _ (List.mem_singleton.mpr rfl), hbc bs0⟩
  | some page =>
    cases crumbsOpt with
    | none =>
      exact ⟨[generateWebsiteSchema baseUrl siteSettings,
          generateArticleSchema baseUrl siteSettings page], rfl, ⟨_, rfl⟩, rfl,
        fun bs hbs _ => absurd hbs (by simp)⟩
    | some bs0 =>
      refine ⟨generateWebsiteSchema baseUrl siteSettings
          :: generateArticleSchema baseUrl siteSettings page
          :: (if bs0.length > 0 then [generateBreadcrumbSchema baseUrl bs0] else []),
        rfl, ⟨_, rfl⟩, rfl, ?_⟩
      intro bs hbs hne
      obtain rfl : bs0 = bs := by injection hbs
      rw [if_pos (List.length_pos.mpr hne)]
      exact ⟨List.mem_cons_of_mem _
          (List.mem_cons_of_mem _ (List.mem_singleton.mpr rfl)), hbc bs0⟩

/-- C5 witness: the shape statement at a concrete configuration with two
breadcrumbs, its hypotheses discharged concretely. -/
theorem c5_structuredData_witness :
    ∃ elems : List Json,
      generateStructuredData ⟨"https://x.com", emptySiteSettings, none,
          some [⟨"Home", "/"⟩, ⟨"Docs", "https://docs.x.com"⟩]⟩
        = jsonRender 0 (Json.arr elems)
      ∧ (∃ rest, elems = generateWebsiteSchema "https://x.com" emptySiteSettings :: rest)
      ∧ jsonLookup "@type" (generateWebsiteSchema "https://x.com" emptySiteSettings)
          = some (Json.str "WebSite")
      ∧ generateBreadcrumbSchema "https://x.com" [⟨"Home", "/"⟩, ⟨"Docs", "https://docs.x.com"⟩] ∈ elems
      ∧ jsonLookup "itemListElement"
          (generateBreadcrumbSchema "https://x.com" [⟨"Home", "/"⟩, ⟨"Docs", "https://docs.x.com"⟩])
          = some (Json.arr (breadcrumbItemsClaim "https://x.com"
              [⟨"Home", "/"⟩, ⟨"Docs", "https://docs.x.com"⟩])) := by
  obtain ⟨elems, h1, h2, h3, h4⟩ :=
    c5_structuredData_shape ⟨"https://x.com", emptySiteSettings, none,
      some [⟨"Home", "/"⟩, ⟨"Docs", "https://docs.x.com"⟩]⟩
  obtain ⟨h5, h6⟩ := h4 [⟨"Home", "/"⟩, ⟨"Docs", "https://docs.x.com"⟩] rfl (by decide)
  exact ⟨elems, h1, h2, h3, h5, h6⟩

/-- C7 counterexample: a product whose `price` and `currency` are both
present, with `price = 0`; the claim asserts the `offers` block is present,
but the code's truthiness guard (`product.price && product.currency`) drops
it, because 0 is falsy. -/
theorem c7_offers_counterexample :
    ((⟨"Widget", "A widget", some 0, some "USD", none, none⟩ : ProductData).price).isSome = true
    ∧ ((⟨"Widget", "A widget", some 0, some "USD", none, none⟩ : ProductData).currency).isSome = true
    ∧ jsonLookup "offers"
        (generateProductSchema "https://x.com"
          ⟨"Widget", "A widget", some 0, some "USD", none, none⟩) = none :=
  ⟨rfl, rfl, rfl⟩

/-- C7 (amended): the object returned by `generateProductSchema` contains the
`offers` Offer block exactly when `price` is present and non-zero and
`currency` is present and non-empty (JavaScript truthiness); when present, its
`availability` equals `product.availability`, defaulting to
"https://schema.org/InStock" when that is absent (or empty). -/
theorem c7_offers_guard (baseUrl : String) (product : ProductData) :
    jsonLookup "offers" (generateProductSchema baseUrl product) = offersClaim product := by
  unfold generateProductSchema offersClaim jsonLookup
  cases hi : truthyStr product.image <;>
    cases hp : product.price <;> cases hc : product.currency <;>
      simp only [hi, hp, hc] <;>
      first
      | rfl
      | (rename_i p c
         by_cases hcond : p ≠ 0 ∧ c ≠ "" <;> simp [hcond, lookupField])

/-- Sequential fallible traversal at specification level: one entry per page,
in input order, stopping at the first error (the shape the claim describes for
the included pages). -/
def mapMExcept (f : Page → Except String SitemapUrl) :
    List Page → Except String (List SitemapUrl)
  | [] => Except.ok []
  | p :: ps =>
    match f p with
    | Except.ok u => (mapMExcept f ps).map (u :: ·)
    | Except.error e => Except.error e

theorem sitemapLoop_eq_filter_mapM (baseUrl : String) (changefreq : Changefreq)
    (priority : Rat) (now : String) (pages : List Page) :
    sitemapLoop baseUrl changefreq priority now pages
      = mapMExcept (pageEntry baseUrl changefreq priority now)
          (pages.filter shouldIncludePage) := by
  induction pages with
  | nil => rfl
  | cons p ps ih =>
    by_cases h : shouldIncludePage p
    · simp only [sitemapLoop, List.filter_cons, h, if_pos, mapMExcept, ih]
    · simp [sitemapLoop, List.filter_cons, h, ih]

/-- C4: whenever `generateSitemapUrls` returns normally, its result is the
optional homepage entry followed by exactly one entry per page satisfying the
eligibility predicate (`shouldIncludePage`: non-empty slug, published,
`seo.noIndex` not true), in the pages' input order. The throwing case (a
malformed date) returns no list at all and is treated separately by the
error-handling claim. -/
theorem c4_sitemap_inclusion_order (pages : List Page) (site : SiteSettings)
    (config : SitemapConfig) (now : String) (res : List SitemapUrl)
    (h : generateSitemapUrls pages site config now = Except.ok res) :
    ∃ entries,
      mapMExcept
        (pageEntry (cfgBaseUrl config) (cfgDefaultChangefreq config)
          (cfgPagePriority config) now)
        (pages.filter shouldIncludePage) = Except.ok entries
      ∧ res =
          (if cfgIncludeHomepage config then
            [⟨cfgBaseUrl config, now, Changefreq.daily, cfgHomepagePriority config⟩]
          else [])
          ++ entries := by
  unfold generateSitemapUrls at h
  rcases hl : sitemapLoop (cfgBaseUrl config) (cfgDefaultChangefreq config)
      (cfgPagePriority config) now pages with e | l
  · rw [hl] at h
    exact absurd h (by simp)
  · rw [hl] at h
    refine ⟨l, by rw [← sitemapLoop_eq_filter_mapM]; exact hl, ?_⟩
    injection h with h
    exact h.symm

/-! Sitemap fixtures. -/

/-- An eligible page carrying a well-formed `updatedAt`. -/
def goodPage : Page :=
  ⟨"3", "About", "about", PageStatus.published, none, none, none, none,
   "2024-01-01T00:00:00.000Z", "2024-01-02T03:04:05.678Z"⟩

/-- A draft page (ineligible). -/
def draftPage : Page :=
  ⟨"4", "Draft", "draft-page", PageStatus.draft, none, none, none, none,
   "2024-01-01T00:00:00.000Z", "2024-01-02T03:04:05.678Z"⟩

/-- An eligible page whose `updatedAt` is a malformed date string. -/
def badDatePage : Page :=
  ⟨"5", "Broken", "broken", PageStatus.published, none, none, none, none,
   "2024-01-01T00:00:00.000Z", "not-a-date"⟩

/-- A sitemap configuration with the homepage entry disabled. -/
def cfgNoHome : SitemapConfig := ⟨none, some false, none, none, none⟩

/-- C4 witness: the inclusion/order statement at a concrete input — one
eligible page and one draft page, homepage disabled — where the result holds
exactly one entry, for the eligible page. -/
theorem c4_sitemap_inclusion_order_witness :
    ∃ entries,
      mapMExcept
        (pageEntry (cfgBaseUrl cfgNoHome) (cfgDefaultChangefreq cfgNoHome)
          (cfgPagePriority cfgNoHome) "2024-06-01T00:00:00.000Z")
        ([goodPage, draftPage].filter shouldIncludePage) = Except.ok entries
      ∧ [(⟨"/pages/about", "2024-01-02T03:04:05.678Z", Changefreq.weekly, 4 / 5⟩ : SitemapUrl)] =
          (if cfgIncludeHomepage cfgNoHome then
            [⟨cfgBaseUrl cfgNoHome, "2024-06-01T00:00:00.000Z", Changefreq.daily,
              cfgHomepagePriority cfgNoHome⟩]
          else [])
          ++ entries :=
  c4_sitemap_inclusion_order [goodPage, draftPage] emptySiteSettings cfgNoHome
    "2024-06-01T00:00:00.000Z"
    [⟨"/pages/about", "2024-01-02T03:04:05.678Z", Changefreq.weekly, 4 / 5⟩] rfl

/-- C8 counterexample: an eligible page whose `updatedAt` is the malformed
date string "not-a-date" makes `generateSitemapUrls` raise (ECMA-262:
`toISOString` throws `RangeError: Invalid time value` on an Invalid Date)
instead of returning a result with an invalid-date serialization. -/
theorem c8_malformed_date_raises :
    generateSitemapUrls [badDatePage] emptySiteSettings cfgNoHome
      "2024-06-01T00:00:00.000Z" = Except.error "Invalid time value" := rfl

/-- C8 (amended): malformed dates are neither caught nor validated, but they
do not propagate into the output — an included page whose lastmod source
(`updatedAt || publishedDate || now`) is a malformed date string makes
`generateSitemapUrls` raise a `RangeError`; when every included page's lastmod
source parses as a date, the call returns normally. -/
theorem c8_ok_when_dates_valid (pages : List Page) (site : SiteSettings)
    (config : SitemapConfig) (now : String)
    (h : ∀ p ∈ pages, shouldIncludePage p = true →
      (jsDateParse (pageLastmodSource now p)).isSome = true) :
    ∃ res, generateSitemapUrls pages site config now = Except.ok res := by
  suffices hs : ∃ l, sitemapLoop (cfgBaseUrl config) (cfgDefaultChangefreq config)
      (cfgPagePriority config) now pages = Except.ok l by
    obtain ⟨l, hl⟩ := hs
    unfold generateSitemapUrls
    rw [hl]
    exact ⟨_, rfl⟩
  induction pages with
  | nil => exact ⟨[], rfl⟩
  | cons p ps ih =>
    obtain ⟨l, hl⟩ := ih fun q hq => h q (List.mem_cons_of_mem p hq)
    by_cases hp : shouldIncludePage p
    · have hd := h p (List.mem_cons_self p ps) hp
      rcases hjd : jsDateParse (pageLastmodSource now p) with _ | iso
      · rw [hjd] at hd
        exact absurd hd (by simp)
      · refine ⟨⟨cfgBaseUrl config ++ "/pages/" ++ p.slug, iso,
          cfgDefaultChangefreq config, cfgPagePriority config⟩ :: l, ?_⟩
        simp only [sitemapLoop, hp, if_pos, pageEntry, hjd, jsToISOString, hl,
          Except.map]
    · simp only [sitemapLoop, hp, Bool.false_eq_true, if_neg]
      exact ⟨l, hl⟩

/-- C8 witness: the amended statement at a concrete eligible page with a
well-formed date. -/
theorem c8_ok_when_dates_valid_witness :
    ∃ res, generateSitemapUrls [goodPage] emptySiteSettings cfgNoHome
      "2024-06-01T00:00:00.000Z" = Except.ok res :=
  c8_ok_when_dates_valid [goodPage] emptySiteSettings cfgNoHome
    "2024-06-01T00:00:00.000Z" (by decide)

/-- C9 counterexample: `generateSitemapUrls` is not independent of the current
time — with default configuration the homepage entry's `lastmod` is the clock
reading, so two calls on equal explicit inputs at different times differ. -/
theorem c9_clock_dependence :
    ¬ (generateSitemapUrls [] emptySiteSettings ⟨none, none, none, none, none⟩
        "2024-01-01T00:00:00.000Z"
      = generateSitemapUrls [] emptySiteSettings ⟨none, none, none, none, none⟩
        "2025-01-01T00:00:00.000Z") := by
  intro h
  exact absurd
    (show ("2024-01-01T00:00:00.000Z" : String) = "2025-01-01T00:00:00.000Z" from
      congrArg
        (fun r => match r with | Except.ok (u :: _) => SitemapUrl.lastmod u | _ => "") h)
    (by decide)

theorem pageLastmodSource_clock_indep (p : Page) (now₁ now₂ : String)
    (h : strOr p.updatedAt (jsOrD p.publishedDate "") ≠ "") :
    pageLastmodSource now₁ p = pageLastmodSource now₂ p := by
  by_cases hu : p.updatedAt = ""
  · have hpd : ∃ s, p.publishedDate = some s ∧ s ≠ "" := by
      rcases hp : p.publishedDate with _ | s
      · exact absurd (by simp [strOr, jsOrD, hu, hp]) h
      · refine ⟨s, rfl, fun hs => ?_⟩
        exact absurd (by simp [strOr, jsOrD, hu, hp, hs]) h
    obtain ⟨s, hp, hs⟩ := hpd
    simp [pageLastmodSource, strOr, jsOrD, hu, hp, hs]
  · simp [pageLastmodSource, strOr, hu]

/-- C9 (amended): each core function is a deterministic function of its
explicit arguments; `generateSEO`, `generateMetaTags`, `generateStructuredData`,
`generateSitemapXML` and `generateRobotsTxt` read no external state at all
(their embeddings take no clock), while `generateSitemapUrls` additionally
reads the current time, on which its output does not depend exactly when the
homepage entry is disabled and every included page's lastmod source is
supplied (non-empty `updatedAt`, or truthy `publishedDate`). -/
theorem c9_sitemap_clock_independence (pages : List Page) (site : SiteSettings)
    (config : SitemapConfig) (now₁ now₂ : String)
    (h1 : config.includeHomepage = some false)
    (h2 : ∀ p ∈ pages, shouldIncludePage p = true →
      strOr p.updatedAt (jsOrD p.publishedDate "") ≠ "") :
    generateSitemapUrls pages site config now₁
      = generateSitemapUrls pages site config now₂ := by
  have hloop : ∀ ps : List Page, (∀ p ∈ ps, shouldIncludePage p = true →
      strOr p.updatedAt (jsOrD p.publishedDate "") ≠ "") →
      sitemapLoop (cfgBaseUrl config) (cfgDefaultChangefreq config)
          (cfgPagePriority config) now₁ ps
        = sitemapLoop (cfgBaseUrl config) (cfgDefaultChangefreq config)
          (cfgPagePriority config) now₂ ps := by
    intro ps
    induction ps with
    | nil => intro _; rfl
    | cons p ps ih =>
      intro hps
      have ihl := ih fun q hq => hps q (List.mem_cons_of_mem p hq)
      by_cases hp : shouldIncludePage p
      · have hsrc := pageLastmodSource_clock_indep p now₁ now₂
          (hps p (List.mem_cons_self p ps) hp)
        simp only [sitemapLoop, hp, if_pos, pageEntry, hsrc, ihl]
      · simp only [sitemapLoop, hp, Bool.false_eq_true, if_neg]
        exact ihl
  have hhome : cfgIncludeHomepage config = false := by
    unfold cfgIncludeHomepage
    rw [h1]
    rfl
  unfold generateSitemapUrls
  rw [hloop pages h2, hhome]
  rfl

/-- C9 witness: clock independence at a concrete input — homepage disabled,
one eligible dated page, two different clock readings. -/
theorem c9_sitemap_clock_independence_witness :
    generateSitemapUrls [goodPage] emptySiteSettings cfgNoHome
        "2024-01-01T00:00:00.000Z"
      = generateSitemapUrls [goodPage] emptySiteSettings cfgNoHome
        "2025-01-01T00:00:00.000Z" :=
  c9_sitemap_clock_independence [goodPage] emptySiteSettings cfgNoHome
    "2024-01-01T00:00:00.000Z" "2025-01-01T00:00:00.000Z" rfl (by decide)

end Seo
